import Mathlib

/-!
Shallow embedding of the PCIe enclosure-management LED driver revisions in
this repository (drivers/pci/npem.c, drivers/pci/pcie_em.c and
drivers/pci/pcie/npem.c) together with proofs about the indication control
protocol.

Machine integers are modelled as `Nat` values below `2 ^ 32`; the C bitwise
operators map to `&&&`, `|||`, `^^^`, and the 32-bit complement `~x` to
`compl32`.  Fallible register and firmware accesses are modelled as explicit
result pairs `(errno, value)` or as `Except Int dsm_output`; the hardware on
the other side of a register or ACPI access is an explicit parameter
(`RegBackend`, response functions), so every driver function becomes a pure,
executable Lean function of the driver state and the hardware behaviour.
-/

namespace Npem

/-- All-ones 32-bit mask. -/
def MASK32 : Nat := 2 ^ 32 - 1

/-- C 32-bit bitwise complement `~x` (on values below `2 ^ 32`). -/
def compl32 (x : Nat) : Nat := MASK32 ^^^ x

/-! ### Register layout constants

Offsets and bits of the NPEM extended capability, from
include/uapi/linux/pci_regs.h.  The indication bit values coincide with the
`NPEM_*` `BIT(n)` definitions that appear literally in
drivers/pci/pcie_em.c lines 25-35. -/

def PCI_NPEM_CAP : Nat := 0x04
def PCI_NPEM_CTRL : Nat := 0x08
def PCI_NPEM_STATUS : Nat := 0x0c

def PCI_NPEM_CAP_CAPABLE : Nat := 1
def PCI_NPEM_CTRL_ENABLE : Nat := 1
def PCI_NPEM_STATUS_CC : Nat := 1

def PCI_NPEM_IND_OK : Nat := 0x04
def PCI_NPEM_IND_LOCATE : Nat := 0x08
def PCI_NPEM_IND_FAIL : Nat := 0x10
def PCI_NPEM_IND_REBUILD : Nat := 0x20
def PCI_NPEM_IND_PFA : Nat := 0x40
def PCI_NPEM_IND_HOTSPARE : Nat := 0x80
def PCI_NPEM_IND_ICA : Nat := 0x100
def PCI_NPEM_IND_IFA : Nat := 0x200
def PCI_NPEM_IND_IDT : Nat := 0x400
def PCI_NPEM_IND_DISABLED : Nat := 0x800
def PCI_NPEM_IND_SPEC_0 : Nat := 0x01000000
def PCI_NPEM_IND_SPEC_1 : Nat := 0x02000000
def PCI_NPEM_IND_SPEC_2 : Nat := 0x04000000
def PCI_NPEM_IND_SPEC_3 : Nat := 0x08000000
def PCI_NPEM_IND_SPEC_4 : Nat := 0x10000000
def PCI_NPEM_IND_SPEC_5 : Nat := 0x20000000
def PCI_NPEM_IND_SPEC_6 : Nat := 0x40000000
def PCI_NPEM_IND_SPEC_7 : Nat := 0x80000000

/-- Errno values used by the driver (include/uapi/asm-generic/errno-base.h). -/
def EINTR : Int := 4
def EIO_errno : Int := 5
def EACCES : Int := 13
def ETIMEDOUT : Int := 110

/-- LED brightness values from include/linux/leds.h. -/
def LED_OFF : Int := 0
def LED_ON : Int := 1

/-! ### Indication catalog (npem.c lines 39-94) -/

/-- struct indication: one catalog entry. -/
structure indication where
  bit : Nat
  name : String
deriving DecidableEq

/-- npem_indications: the register-backend catalog (npem.c lines 44-64). -/
def npem_indications : List indication :=
  [⟨PCI_NPEM_IND_OK, "enclosure:ok"⟩,
   ⟨PCI_NPEM_IND_LOCATE, "enclosure:locate"⟩,
   ⟨PCI_NPEM_IND_FAIL, "enclosure:fail"⟩,
   ⟨PCI_NPEM_IND_REBUILD, "enclosure:rebuild"⟩,
   ⟨PCI_NPEM_IND_PFA, "enclosure:pfa"⟩,
   ⟨PCI_NPEM_IND_HOTSPARE, "enclosure:hotspare"⟩,
   ⟨PCI_NPEM_IND_ICA, "enclosure:ica"⟩,
   ⟨PCI_NPEM_IND_IFA, "enclosure:ifa"⟩,
   ⟨PCI_NPEM_IND_IDT, "enclosure:idt"⟩,
   ⟨PCI_NPEM_IND_DISABLED, "enclosure:disabled"⟩,
   ⟨PCI_NPEM_IND_SPEC_0, "enclosure:specific_0"⟩,
   ⟨PCI_NPEM_IND_SPEC_1, "enclosure:specific_1"⟩,
   ⟨PCI_NPEM_IND_SPEC_2, "enclosure:specific_2"⟩,
   ⟨PCI_NPEM_IND_SPEC_3, "enclosure:specific_3"⟩,
   ⟨PCI_NPEM_IND_SPEC_4, "enclosure:specific_4"⟩,
   ⟨PCI_NPEM_IND_SPEC_5, "enclosure:specific_5"⟩,
   ⟨PCI_NPEM_IND_SPEC_6, "enclosure:specific_6"⟩,
   ⟨PCI_NPEM_IND_SPEC_7, "enclosure:specific_7"⟩]

/-- dsm_indications: the method-backend catalog (npem.c lines 67-79). -/
def dsm_indications : List indication :=
  [⟨PCI_NPEM_IND_OK, "enclosure:ok"⟩,
   ⟨PCI_NPEM_IND_LOCATE, "enclosure:locate"⟩,
   ⟨PCI_NPEM_IND_FAIL, "enclosure:fail"⟩,
   ⟨PCI_NPEM_IND_REBUILD, "enclosure:rebuild"⟩,
   ⟨PCI_NPEM_IND_PFA, "enclosure:pfa"⟩,
   ⟨PCI_NPEM_IND_HOTSPARE, "enclosure:hotspare"⟩,
   ⟨PCI_NPEM_IND_ICA, "enclosure:ica"⟩,
   ⟨PCI_NPEM_IND_IFA, "enclosure:ifa"⟩,
   ⟨PCI_NPEM_IND_IDT, "enclosure:idt"⟩,
   ⟨PCI_NPEM_IND_DISABLED, "enclosure:disabled"⟩]

/-- reg_to_indications (npem.c lines 85-94): OR all catalog bits, then mask
the capability word with the result. -/
def reg_to_indications (caps : Nat) (inds : List indication) : Nat :=
  caps &&& inds.foldl (fun acc ind => acc ||| ind.bit) 0

/-! ### Driver state (struct npem, npem.c lines 143-152) -/

/-- The two cached bitmasks of struct npem.  The device handle, lock and LED
array are modelled separately where a claim needs them. -/
structure npem where
  supported_indications : Nat
  active_indications : Nat
deriving DecidableEq

/-! ### Register backend (npem.c lines 154-233)

`RegBackend` is the abstract hardware behaviour observed through
npem_read_reg / npem_write_ctrl during one backend call: each field gives
the `(errno, value)` outcome of one kind of config-space access, with the
value deposited into the caller's buffer even on failure. -/

structure RegBackend where
  /-- Result of reading the NPEM control register before any write
  (standalone npem_get_active_indications). -/
  ctrlRead : Int × Nat
  /-- Errno result of npem_write_ctrl for a given written value. -/
  writeCtrl : Nat → Int
  /-- Result of the i-th status-register read inside the completion poll. -/
  statusReads : Nat → Int × Nat
  /-- Number of poll iterations that fit before the 1-second deadline. -/
  pollBudget : Nat
  /-- Result of re-reading the control register after value v was written. -/
  ctrlReRead : Nat → Int × Nat

/-- Exit of the read_poll_timeout macro (include/linux/iopoll.h): either the
condition became true (the macro yields 0) or the deadline elapsed and the
condition was still false after a final read (the macro yields -ETIMEDOUT).
The payload is the last npem_read_reg result (ret_val, cc_status). -/
inductive PollExit where
  | condMet (ret_val : Int) (cc_status : Nat)
  | timedOut (ret_val : Int) (cc_status : Nat)
deriving DecidableEq

/-- read_poll_timeout as used at npem.c lines 208-211: repeatedly read the
status register; stop when the read fails or PCI_NPEM_STATUS_CC is set;
once the deadline elapses (`fuel` exhausted), do one final read and decide. -/
def read_poll_timeout (reads : Nat → Int × Nat) : Nat → Nat → PollExit
  | i, fuel + 1 =>
    let rv := reads i
    if rv.1 ≠ 0 ∨ rv.2 &&& PCI_NPEM_STATUS_CC ≠ 0 then .condMet rv.1 rv.2
    else read_poll_timeout reads (i + 1) fuel
  | i, 0 =>
    let rv := reads i
    if rv.1 ≠ 0 ∨ rv.2 &&& PCI_NPEM_STATUS_CC ≠ 0 then .condMet rv.1 rv.2
    else .timedOut rv.1 rv.2

/-- npem_get_active_indications (npem.c lines 169-184), as a function of the
control-register read outcome.  Returns (ret, final buffer contents): on a
failed read the buffer holds whatever the read deposited; on success the
value is zeroed when PCI_NPEM_CTRL_ENABLE is clear and then masked with the
supported set. -/
def npem_get_active_indications (supported : Nat) (ctrlRead : Int × Nat) : Int × Nat :=
  if ctrlRead.1 ≠ 0 then (ctrlRead.1, ctrlRead.2)
  else
    let buf := if ctrlRead.2 &&& PCI_NPEM_CTRL_ENABLE = 0 then 0 else ctrlRead.2
    (0, buf &&& supported)

/-- npem_set_active_indications (npem.c lines 186-227).  Note the verbatim
translation of `if (ret) return ret_val;`: when read_poll_timeout exits via
its deadline, the function returns ret_val (the last status read's errno)
and leaves the cache untouched; when the poll condition was met it re-reads
the control register into the active_indications cache. -/
def npem_set_active_indications (b : RegBackend) (st : npem) (val : Nat) : Int × npem :=
  let v := val ||| PCI_NPEM_CTRL_ENABLE
  let wret := b.writeCtrl v
  if wret ≠ 0 then (wret, st)
  else
    match read_poll_timeout b.statusReads 0 b.pollBudget with
    | .timedOut ret_val _ => (ret_val, st)
    | .condMet _ _ =>
      let g := npem_get_active_indications st.supported_indications (b.ctrlReRead v)
      (g.1, { st with active_indications := g.2 })

/-! ### Method (_DSM) backend (npem.c lines 255-361) -/

/-- struct dsm_output (npem.c lines 255-260). -/
structure dsm_output where
  status : Nat
  function_specific_err : Nat
  vendor_specific_err : Nat
  state : Nat
deriving DecidableEq

/-- dsm_get (npem.c lines 307-320) as a function of the dsm_evaluate outcome
and the caller's buffer: a nonzero status yields -EIO_errno with the buffer
untouched; otherwise the buffer receives the state field. -/
def dsm_get (resp : Except Int dsm_output) (buf : Nat) : Int × Nat :=
  match resp with
  | .error e => (e, buf)
  | .ok o => if o.status ≠ 0 then (-EIO_errno, buf) else (0, o.state)

/-- dsm_get_active_indications (npem.c lines 322-329): dsm_get, then the
buffer is masked with the supported set regardless of the return code. -/
def dsm_get_active_indications (resp : Except Int dsm_output) (supported : Nat)
    (buf : Nat) : Int × Nat :=
  let g := dsm_get resp buf
  (g.1, g.2 &&& supported)

/-- dsm_set_active_indications (npem.c lines 331-361).  `resp value` is the
dsm_evaluate outcome for the SET_STATE_DSM call with that value.  Status 4
with function-specific error 1 falls through to the success path; any other
nonzero status is -EIO_errno; on success the raw state field of the response is
stored into the active_indications cache. -/
def dsm_set_active_indications (resp : Nat → Except Int dsm_output) (st : npem)
    (value : Nat) : Int × npem :=
  match resp value with
  | .error e => (e, st)
  | .ok o =>
    if o.status = 4 then
      if o.function_specific_err ≠ 1 then (-EIO_errno, st)
      else (0, { st with active_indications := o.state })
    else if o.status = 0 then (0, { st with active_indications := o.state })
    else (-EIO_errno, st)

/-! ### Backend dispatch (struct npem_ops, npem.c lines 123-127, 229-233,
363-367) -/

/-- The backend selected into npem->ops, carrying the hardware behaviour the
claims quantify over: the register backend state, or the _DSM responses for
GET_STATE_DSM and SET_STATE_DSM. -/
inductive ops_backend where
  | npemReg (b : RegBackend)
  | dsm (getResp : Except Int dsm_output) (setResp : Nat → Except Int dsm_output)

/-- The catalog array ops->inds of the selected backend. -/
def ops_inds : ops_backend → List indication
  | .npemReg _ => npem_indications
  | .dsm _ _ => dsm_indications

/-- ops->get_active_indications dispatch.  `buf` is the caller's buffer
before the call (relevant on the _DSM error path, which masks it anyway). -/
def get_active_indications (ops : ops_backend) (supported : Nat) (buf : Nat) :
    Int × Nat :=
  match ops with
  | .npemReg b => npem_get_active_indications supported b.ctrlRead
  | .dsm g _ => dsm_get_active_indications g supported buf

/-- ops->set_active_indications dispatch. -/
def set_active_indications (ops : ops_backend) (st : npem) (val : Nat) : Int × npem :=
  match ops with
  | .npemReg b => npem_set_active_indications b st val
  | .dsm _ s => dsm_set_active_indications s st val

/-! ### Per-indication LED toggle operations (npem.c lines 373-411)

`lockRet` is the result of mutex_lock_interruptible(&npem->npem_lock): 0 on
acquisition, -EINTR when the wait was interrupted by a signal. -/

/-- brightness_get (npem.c lines 373-389): on a failed lock acquisition the
errno itself is returned as the brightness; otherwise the cached Active Set
is consulted, without any backend I/O.  The state is returned to record
that the function never mutates it. -/
def brightness_get (lockRet : Int) (st : npem) (bit : Nat) : Int × npem :=
  if lockRet ≠ 0 then (lockRet, st)
  else if st.active_indications &&& bit ≠ 0 then (LED_ON, st)
  else (LED_OFF, st)

/-- brightness_set (npem.c lines 391-411): compute the new mask from the
cached Active Set and forward it to the selected backend. -/
def brightness_set (lockRet : Int) (ops : ops_backend) (st : npem) (bit : Nat)
    (brightness : Int) : Int × npem :=
  if lockRet ≠ 0 then (lockRet, st)
  else
    let indications :=
      if brightness = LED_OFF then st.active_indications &&& compl32 bit
      else st.active_indications ||| bit
    set_active_indications ops st indications

/-! ### LED classdev registration and session creation
(npem.c lines 413-512) -/

/-- Outcome of one pci_npem_set_led_classdev attempt: success, a
led_compose_name failure (which leaves the zero-initialized name buffer
untouched), or a led_classdev_register failure (after which the code clears
name[0]). -/
inductive led_reg_outcome where
  | ok
  | composeFail (e : Int)
  | registerFail (e : Int)

/-- One slot of the npem->leds array: its indication bit, whether name[0]
is nonzero, and whether the LED classdev is currently registered. -/
structure npem_led where
  bit : Nat
  nameSet : Bool
  registered : Bool
deriving DecidableEq

/-- pci_npem_set_led_classdev (npem.c lines 429-455) for one slot. -/
def pci_npem_set_led_classdev (bit : Nat) : led_reg_outcome → Int × npem_led
  | .ok => (0, ⟨bit, true, true⟩)
  | .composeFail e => (e, ⟨bit, false, false⟩)
  | .registerFail e => (e, ⟨bit, false, false⟩)

/-- npem_free (npem.c lines 413-427): unregister every LED whose name[0] is
nonzero. -/
def npem_free (leds : List npem_led) : List npem_led :=
  leds.map fun l => if l.nameSet then { l with registered := false } else l

/-- The registration loop of pci_npem_init (npem.c lines 494-508): iterate
npem_indications, skip unsupported indications, and on the first failing
registration run npem_free over the slots filled so far and propagate the
error.  `oracle i` gives the outcome of the i-th registration attempt. -/
def init_leds (oracle : Nat → led_reg_outcome) (supported : Nat) :
    List indication → Nat → List npem_led → Except (Int × List npem_led) (List npem_led)
  | [], _, acc => .ok acc
  | ind :: rest, idx, acc =>
    if supported &&& ind.bit = 0 then init_leds oracle supported rest idx acc
    else
      match oracle idx with
      | .ok => init_leds oracle supported rest (idx + 1) (acc ++ [⟨ind.bit, true, true⟩])
      | .composeFail e => .error (e, npem_free (acc ++ [⟨ind.bit, false, false⟩]))
      | .registerFail e => .error (e, npem_free (acc ++ [⟨ind.bit, false, false⟩]))

/-- Result of pci_npem_init: the returned errno, the created session state
(on success), and the final contents of the LED slot array (after npem_free
on the failure paths). -/
structure init_result where
  ret : Int
  session : Option npem
  leds : List npem_led
deriving DecidableEq

/-- pci_npem_init (npem.c lines 457-512).  The kzalloc success is assumed
(allocation failure creates no handles at all).  `garbage` is the arbitrary
initial content of the local `active` buffer. -/
def pci_npem_init (ops : ops_backend) (caps : Nat) (garbage : Nat)
    (oracle : Nat → led_reg_outcome) : init_result :=
  let supported := reg_to_indications caps (ops_inds ops)
  let g := get_active_indications ops supported garbage
  if g.1 ≠ 0 then ⟨-EACCES, none, []⟩
  else
    let st : npem := ⟨supported, reg_to_indications g.2 (ops_inds ops)⟩
    match init_leds oracle supported npem_indications 0 [] with
    | .ok leds => ⟨0, some st, leds⟩
    | .error (e, leds) => ⟨e, none, leds⟩

/-! ### Driver probe (pci_npem_create, npem.c lines 520-550) -/

/-- One PCI config-space access, as performed by pci_read_config_dword /
pci_write_config_dword on the device. -/
inductive cfg_access where
  | read (off : Nat)
  | write (off : Nat) (v : Nat)
deriving DecidableEq

/-- The device as seen by pci_npem_create: the npem_has_dsm result, the
pci_find_ext_capability result (0 when the NPEM capability is absent), the
outcome of reading the NPEM capability register, the _DSM responses, and
the register-backend behaviour used by the npem ops. -/
structure pci_dev where
  hasDsm : Bool
  npemPos : Nat
  capRead : Int × Nat
  dsmSupportedResp : Except Int dsm_output
  dsmGetResp : Except Int dsm_output
  dsmSetResp : Nat → Except Int dsm_output
  reg : RegBackend

/-- Config-space accesses performed by pci_npem_init for the given ops: the
register backend's get_active_indications reads the control register; the
_DSM backend performs none. -/
def init_accesses (ops : ops_backend) (pos : Nat) : List cfg_access :=
  match ops with
  | .npemReg _ => [.read (pos + PCI_NPEM_CTRL)]
  | .dsm _ _ => []

/-- Result of pci_npem_create: which ops were handed to pci_npem_init
(some true = dsm_ops, some false = npem_ops, none = no driver bound), the
config-space accesses performed during the whole creation, and the init
outcome when init was reached. -/
structure create_result where
  backend : Option Bool
  accesses : List cfg_access
  initRes : Option init_result

/-- pci_npem_create (npem.c lines 520-550): when npem_has_dsm fails, find
the NPEM capability and read its capability register (bailing out when it
is absent or not capable); otherwise query GET_SUPPORTED_STATES_DSM and use
dsm_ops.  Every config-space access the C code performs is recorded. -/
def pci_npem_create (d : pci_dev) (garbage : Nat) (oracle : Nat → led_reg_outcome) :
    create_result :=
  if !d.hasDsm then
    if d.npemPos = 0 then ⟨none, [], none⟩
    else
      let acc0 : List cfg_access := [.read (d.npemPos + PCI_NPEM_CAP)]
      if d.capRead.1 ≠ 0 ∨ d.capRead.2 &&& PCI_NPEM_CAP_CAPABLE = 0 then ⟨none, acc0, none⟩
      else
        let ops := ops_backend.npemReg d.reg
        let r := pci_npem_init ops d.capRead.2 garbage oracle
        ⟨some false, acc0 ++ init_accesses ops d.npemPos, some r⟩
  else
    let g := dsm_get d.dsmSupportedResp garbage
    if g.1 ≠ 0 then ⟨none, [], none⟩
    else
      let ops := ops_backend.dsm d.dsmGetResp d.dsmSetResp
      let r := pci_npem_init ops g.2 garbage oracle
      ⟨some true, [], some r⟩

end Npem

namespace PcieEm

/-!
Embedding of the older revision drivers/pci/pcie_em.c, and of the portdrv
revision drivers/pci/pcie/npem.c where it differs.  The NPEM_* bit values
are the BIT(n) definitions at pcie_em.c lines 25-38.
-/

def NPEM_ENABLED : Nat := 0x001
def NPEM_RESET : Nat := 0x002
def NPEM_OK : Nat := 0x004
def NPEM_LOCATE : Nat := 0x008
def NPEM_FAILED : Nat := 0x010
def NPEM_REBUILD : Nat := 0x020
def NPEM_PFA : Nat := 0x040
def NPEM_HOTSPARE : Nat := 0x080
def NPEM_ICA : Nat := 0x100
def NPEM_IFA : Nat := 0x200
def NPEM_IDT : Nat := 0x400
def NPEM_DISABLED : Nat := 0x800

/-- NPEM Command completed bit of the status register. -/
def NPEM_CC : Nat := 0x001

/-- enum pcie_em_type (pcie_em.c lines 55-58). -/
inductive pcie_em_type where
  | dsm
  | npem
deriving DecidableEq

/-- enum enclosure_led_pattern as used by the to_npem table in pcie_em.c
lines 42-53 (this revision of the enum also has PFA, IDT and DISABLED
entries). -/
inductive enclosure_led_pattern where
  | normal
  | locate
  | failure
  | rebuild
  | pfa
  | hotspare
  | ica
  | ifa
  | idt
  | disabled
  | unknown
deriving DecidableEq

/-- enum enclosure_status (include/linux/enclosure.h lines 29-40). -/
inductive enclosure_status where
  | unsupported
  | ok
  | critical
  | nonCritical
  | unrecoverable
  | notInstalled
  | unknown
  | unavailable
deriving DecidableEq

/-- The to_npem table (pcie_em.c lines 42-53).  The unknown entry is never
consulted: get_pattern_bit filters it first. -/
def to_npem : enclosure_led_pattern → Nat
  | .normal => NPEM_OK
  | .locate => NPEM_LOCATE
  | .failure => NPEM_FAILED
  | .rebuild => NPEM_REBUILD
  | .pfa => NPEM_PFA
  | .hotspare => NPEM_HOTSPARE
  | .ica => NPEM_ICA
  | .ifa => NPEM_IFA
  | .idt => NPEM_IDT
  | .disabled => NPEM_DISABLED
  | .unknown => 0

/-- get_pattern_bit (pcie_em.c lines 74-83): 0 for unknown patterns and for
DISABLED on the _DSM backend, the table bit otherwise. -/
def get_pattern_bit (type : pcie_em_type) (ptrn : enclosure_led_pattern) : Nat :=
  if ptrn = .unknown then 0
  else if type = .dsm ∧ ptrn = .disabled then 0
  else to_npem ptrn

/-- dsm_set (pcie_em.c lines 153-190) as a function of the ACPI evaluation
outcome: every nonzero status, including the partially-applied status 4,
yields -EIO_errno. -/
def dsm_set (resp : Except Int Npem.dsm_output) : Int :=
  match resp with
  | .error e => e
  | .ok o => if o.status ≠ 0 then -Npem.EIO_errno else 0

/-- Hardware behaviour behind the npem register functions of pcie_em.c and
pcie/npem.c: successive status-register reads, the number of wait-loop
iterations that fit before the 1-second deadline, the control-register read
outcome, and the control-register write outcome. -/
structure npem_hw where
  statusReads : Nat → Int × Nat
  pollBudget : Nat
  ctrlRead : Int × Nat
  writeCtrl : Nat → Int

/-- wait_for_completion_npem (pcie_em.c lines 318-334, pcie/npem.c lines
69-85): read the status register until a successful read shows NPEM_CC or
the deadline elapses.  Returns the index of the first unconsumed status
read. -/
def wait_for_completion_npem (reads : Nat → Int × Nat) : Nat → Nat → Nat
  | i, fuel + 1 =>
    let r := reads i
    if r.1 = 0 ∧ r.2 &&& NPEM_CC = NPEM_CC then i + 1
    else wait_for_completion_npem reads (i + 1) fuel
  | i, 0 => i + 1

/-- get_active_patterns_npem (pcie_em.c lines 353-370): read the status
register, wait when NPEM_CC is already set (note the inverted condition
relative to the set path), then return the raw control-register value.
`buf` is the caller's output variable before the call. -/
def get_active_patterns_npem_em (h : npem_hw) (buf : Nat) : Int × Nat :=
  let s := h.statusReads 0
  if s.1 ≠ 0 then (s.1, buf)
  else
    let _next := if s.2 &&& NPEM_CC = NPEM_CC then
        wait_for_completion_npem h.statusReads 1 h.pollBudget
      else 1
    let c := h.ctrlRead
    if c.1 ≠ 0 then (c.1, c.2) else (0, c.2)

/-- get_active_patterns_npem of the portdrv revision (pcie/npem.c lines
104-122): same structure, but the ENABLED and RESET bits are masked off the
returned value.  No zeroing when ENABLED is clear. -/
def get_active_patterns_npem_portdrv (h : npem_hw) (buf : Nat) : Int × Nat :=
  let s := h.statusReads 0
  if s.1 ≠ 0 then (s.1, buf)
  else
    let _next := if s.2 &&& NPEM_CC = NPEM_CC then
        wait_for_completion_npem h.statusReads 1 h.pollBudget
      else 1
    let c := h.ctrlRead
    if c.1 ≠ 0 then (c.1, c.2)
    else (0, c.2 &&& Npem.compl32 (NPEM_ENABLED ||| NPEM_RESET))

/-- One backend call made by the enclosure callbacks of pcie_em.c. -/
inductive em_event where
  | getActive
  | setActive (v : Nat)
deriving DecidableEq

/-- Abstract ops->get_active_patterns / ops->set_active_patterns outcomes
for one pcie_em_set_pattern_state call. -/
structure em_backend where
  get_active : Int × Nat
  set_active : Nat → Int

/-- pcie_em_set_pattern_state (pcie_em.c lines 446-476), with the backend
calls it performs recorded in order.  IS_BIT_SET(mask, bit) is
((mask & bit) == bit). -/
def pcie_em_set_pattern_state (b : em_backend) (type : pcie_em_type) (supported : Nat)
    (ptrn : enclosure_led_pattern) (state : Bool) : enclosure_status × List em_event :=
  let new_ptrn := get_pattern_bit type ptrn
  if new_ptrn = 0 then (.unsupported, [])
  else
    let g := b.get_active
    if g.1 ≠ 0 then (.critical, [.getActive])
    else if state = decide (g.2 &&& new_ptrn = new_ptrn) then (.nonCritical, [.getActive])
    else
      let new_ptrns := if state then g.2 ||| new_ptrn else g.2 &&& Npem.compl32 new_ptrn
      if b.set_active new_ptrns ≠ 0 then (.critical, [.getActive, .setActive new_ptrns])
      else (.ok, [.getActive, .setActive new_ptrns])

/-- Backend selection of get_pcie_enclosure_management (pcie_em.c lines
567-576): the _DSM backend is tried first, the register backend only when
no _DSM is present. -/
def get_pcie_enclosure_management (hasDsm hasNpem : Bool) : Option pcie_em_type :=
  if hasDsm then some .dsm
  else if hasNpem then some .npem
  else none

end PcieEm

open Npem PcieEm

/-! ### Shared bitwise helper lemmas -/

/-- Setting bit 0 makes bit 0 readable: used to discharge the channel-enable
test after a write that ORed PCI_NPEM_CTRL_ENABLE in. -/
theorem lor_one_land_one (x : Nat) : (x ||| 1) &&& 1 = 1 := by
  apply Nat.eq_of_testBit_eq
  intro i
  simp only [Nat.testBit_land, Nat.testBit_lor]
  cases Nat.testBit x i <;> cases Nat.testBit 1 i <;> rfl

/-- Variant of lor_one_land_one in the `% 2` form that simp normalizes
bit-0 tests into. -/
theorem lor_one_mod_two (x : Nat) : (x ||| 1) % 2 = 1 := by
  rw [← Nat.and_one_is_mod]
  exact lor_one_land_one x

/-- Absorption law behind the idempotence of the register-backend set path. -/
theorem land_absorb_lor (a k s : Nat) :
    ((((a ||| k) ||| 1) &&& s) ||| k ||| 1) &&& s = ((a ||| k) ||| 1) &&& s := by
  apply Nat.eq_of_testBit_eq
  intro i
  simp only [Nat.testBit_land, Nat.testBit_lor]
  cases Nat.testBit a i <;> cases Nat.testBit k i <;>
    cases Nat.testBit 1 i <;> cases Nat.testBit s i <;> rfl

/-- OR is absorptive: behind the idempotence of the method-backend set path. -/
theorem lor_absorb (a k : Nat) : (a ||| k) ||| k = a ||| k := by
  apply Nat.eq_of_testBit_eq
  intro i
  simp only [Nat.testBit_lor]
  cases Nat.testBit a i <;> cases Nat.testBit k i <;> rfl

/-! ### C1 -/

/-- C1: the claim says that after every completed set the cached Active Set
is a subset of the Supported Set for both backends.  The method backend
violates it: dsm_set_active_indications stores the raw response state into
npem->active_indications without masking it with supported_indications
(npem.c line 358), contradicting the struct npem kernel-doc which promises
that non-indication and unsupported bits are cleared in the cache.  Here the
device supports only PCI_NPEM_IND_OK, the firmware reports state
PCI_NPEM_IND_LOCATE, the set completes successfully, and the resulting
cache has a bit outside the Supported Set. -/
theorem C1_dsm_set_breaks_subset_invariant :
    (Npem.dsm_set_active_indications
        (fun _ => .ok ⟨0, 0, 0, PCI_NPEM_IND_LOCATE⟩)
        ⟨PCI_NPEM_IND_OK, 0⟩ PCI_NPEM_IND_OK).1 = 0 ∧
    ((Npem.dsm_set_active_indications
        (fun _ => .ok ⟨0, 0, 0, PCI_NPEM_IND_LOCATE⟩)
        ⟨PCI_NPEM_IND_OK, 0⟩ PCI_NPEM_IND_OK).2.active_indications &&&
      compl32 PCI_NPEM_IND_OK) ≠ 0 := by decide

/-! ### C2 -/

/-- Register backend whose status register always reads back successfully
with the command-complete bit clear, for the whole 1-second deadline. -/
def c2_backend : RegBackend :=
  { ctrlRead := (0, 0)
    writeCtrl := fun _ => 0
    statusReads := fun _ => (0, 0)
    pollBudget := 3
    ctrlReRead := fun _ => (0, 13) }

/-- C2: the claim says a clean completion-poll timeout makes
npem_set_active_indications return a timeout error with the Active Set cache
retained.  The cache is indeed retained, but the code returns success: on
the timeout path `if (ret) return ret_val;` (npem.c line 213) returns the
last status read's errno, which is provably 0 whenever the poll timed out
(a nonzero ret_val would have satisfied the poll condition).  Evaluating the
function on a backend that never reports command-complete yields return
value 0, not -ETIMEDOUT. -/
theorem C2_clean_timeout_returns_success :
    Npem.npem_set_active_indications c2_backend ⟨12, 4⟩ 8 = (0, ⟨12, 4⟩) ∧
    (0 : Int) ≠ -ETIMEDOUT := by decide

/-! ### C3 -/

/-- Register backend that never reports command-complete while its control
register holds value 13. -/
def c3_backend : RegBackend :=
  { ctrlRead := (0, 0)
    writeCtrl := fun _ => 0
    statusReads := fun _ => (0, 0)
    pollBudget := 2
    ctrlReRead := fun _ => (0, 13) }

/-- C3: the claim says that after every successful set the cache equals the
state the backend last reported (the post-completion re-read for the
register backend).  The timeout slip of C2 breaks this: a set whose
completion poll times out returns 0 (success) without performing the
post-completion re-read, so the cache keeps its pre-call value 4 even
though any re-read of the control register would report 12. -/
theorem C3_timeout_success_keeps_stale_cache :
    Npem.npem_set_active_indications c3_backend ⟨12, 4⟩ 8 = (0, ⟨12, 4⟩) ∧
    (Npem.npem_get_active_indications 12
        (c3_backend.ctrlReRead (8 ||| PCI_NPEM_CTRL_ENABLE))).2 = 12 ∧
    (4 : Nat) ≠ 12 := by decide

/-! ### C4 -/

/-- C4: when the device has a valid _DSM method, pci_npem_create selects the
dsm_ops backend and the whole session creation performs no config-space
access at all: in particular the NPEM capability register is neither read
nor written.  The older pcie_em.c revision likewise prefers the _DSM
backend in get_pcie_enclosure_management. -/
theorem C4_dsm_preferred_no_register_access
    (d : pci_dev) (garbage : Nat) (oracle : Nat → led_reg_outcome)
    (hdsm : d.hasDsm = true) (hnpem : d.npemPos ≠ 0)
    (hok : (dsm_get d.dsmSupportedResp garbage).1 = 0) :
    (pci_npem_create d garbage oracle).backend = some true ∧
    (pci_npem_create d garbage oracle).accesses = [] ∧
    get_pcie_enclosure_management true true = some .dsm := by
  refine ⟨?_, ?_, by simp [get_pcie_enclosure_management]⟩ <;>
    simp [pci_npem_create, hdsm, hok]

/-- Echo register backend: every write succeeds, command-complete is set at
once, and re-reading the control register returns exactly the written
value (a device that accepts requests verbatim). -/
def echoRegBackend : RegBackend :=
  { ctrlRead := (0, 0)
    writeCtrl := fun _ => 0
    statusReads := fun _ => (0, PCI_NPEM_STATUS_CC)
    pollBudget := 0
    ctrlReRead := fun v => (0, v) }

/-- Echo _DSM set response: the firmware accepts the requested state
verbatim and reports it back with status 0. -/
def dsmEchoSet : Nat → Except Int dsm_output := fun v => .ok ⟨0, 0, 0, v⟩

/-- Uneventful _DSM get response used where a get response is required but
never consulted. -/
def dsmEchoGet : Except Int dsm_output := .ok ⟨0, 0, 0, 0⟩

/-- Device exposing both a valid _DSM (supported-states response 0xC) and an
NPEM capability register, used to instantiate C4. -/
def c4_dev : pci_dev :=
  { hasDsm := true
    npemPos := 0x100
    capRead := (0, 0xFFF)
    dsmSupportedResp := .ok ⟨0, 0, 0, 0xC⟩
    dsmGetResp := dsmEchoGet
    dsmSetResp := dsmEchoSet
    reg := echoRegBackend }

/-- Witness for C4 at the concrete device c4_dev. -/
theorem C4_witness :
    c4_dev.hasDsm = true ∧ c4_dev.npemPos ≠ 0 ∧
    (dsm_get c4_dev.dsmSupportedResp 0).1 = 0 ∧
    ((pci_npem_create c4_dev 0 (fun _ => .ok)).backend = some true ∧
     (pci_npem_create c4_dev 0 (fun _ => .ok)).accesses = [] ∧
     get_pcie_enclosure_management true true = some .dsm) :=
  ⟨rfl, by decide, rfl,
   C4_dsm_preferred_no_register_access c4_dev 0 (fun _ => .ok) rfl (by decide) rfl⟩

/-! ### C5 -/

/-- C5 counterexample: the claim covers the method-backend set of both
revisions, but dsm_set in pcie_em.c (lines 183-187) treats every nonzero
status — including the partially-applied status 4 with function-specific
error 1 — as -Npem.EIO_errno instead of success. -/
theorem C5_em_dsm_set_rejects_partially_applied :
    PcieEm.dsm_set (.ok ⟨4, 1, 0, 8⟩) = -Npem.EIO_errno ∧ -Npem.EIO_errno ≠ (0 : Int) := by decide

/-- Method-backend set response reporting the partially-applied status with
function-specific error 1 and resulting state 12. -/
def dsmPartialResp : Nat → Except Int dsm_output := fun _ => .ok ⟨4, 1, 0, 12⟩

/-- C5 (amended): in npem.c's dsm_set_active_indications the status
taxonomy of the claim holds: status 4 with function-specific error 1 falls
through to the success path and the response's state field becomes the
Active Set; every other nonzero status (including status 4 with any other
function-specific error) propagates as -Npem.EIO_errno with the cache untouched. -/
theorem C5_dsm_set_status_taxonomy
    (resp : Nat → Except Int dsm_output) (st : npem) (value : Nat)
    (o : dsm_output) (ho : resp value = .ok o) :
    (o.status = 4 ∧ o.function_specific_err = 1 →
      dsm_set_active_indications resp st value =
        (0, { st with active_indications := o.state })) ∧
    (o.status ≠ 0 → ¬(o.status = 4 ∧ o.function_specific_err = 1) →
      dsm_set_active_indications resp st value = (-Npem.EIO_errno, st)) := by
  constructor
  · rintro ⟨h4, hf⟩
    simp [dsm_set_active_indications, ho, h4, hf]
  · intro hnz hno
    by_cases h4 : o.status = 4
    · have hf : o.function_specific_err ≠ 1 := fun hf => hno ⟨h4, hf⟩
      simp [dsm_set_active_indications, ho, h4, hf]
    · simp [dsm_set_active_indications, ho, h4, hnz]

/-- Witness for C5 at a concrete partially-applied response. -/
theorem C5_witness :
    dsmPartialResp 8 = .ok ⟨4, 1, 0, 12⟩ ∧
    (((4 : Nat) = 4 ∧ (1 : Nat) = 1 →
        dsm_set_active_indications dsmPartialResp ⟨12, 0⟩ 8 = (0, ⟨12, 12⟩)) ∧
     ((4 : Nat) ≠ 0 → ¬((4 : Nat) = 4 ∧ (1 : Nat) = 1) →
        dsm_set_active_indications dsmPartialResp ⟨12, 0⟩ 8 = (-Npem.EIO_errno, ⟨12, 0⟩))) :=
  ⟨rfl, C5_dsm_set_status_taxonomy dsmPartialResp ⟨12, 0⟩ 8 ⟨4, 1, 0, 12⟩ rfl⟩

/-! ### C6 -/

/-- After npem_free, a LED slot is registered only if it was registered but
had an empty name — impossible under the loop invariant that every
registered slot has its name set. -/
theorem npem_free_unregisters (leds : List npem_led)
    (hinv : ∀ l ∈ leds, l.registered = true → l.nameSet = true) :
    ∀ l ∈ npem_free leds, l.registered = false := by
  intro l hl
  simp only [npem_free, List.mem_map] at hl
  obtain ⟨l0, hl0, rfl⟩ := hl
  by_cases hn : l0.nameSet
  · simp [hn]
  · rw [if_neg hn]
    cases hr : l0.registered
    · rfl
    · exact absurd (hinv l0 hl0 hr) hn

/-- Every error exit of the registration loop runs npem_free over the slots
filled so far, and afterwards no slot is registered. -/
theorem init_leds_error_unregisters (oracle : Nat → led_reg_outcome) (supported : Nat)
    (inds : List indication) :
    ∀ (idx : Nat) (acc : List npem_led),
      (∀ l ∈ acc, l.registered = true → l.nameSet = true) →
      ∀ e leds, init_leds oracle supported inds idx acc = .error (e, leds) →
      ∀ l ∈ leds, l.registered = false := by
  induction inds with
  | nil =>
    intro idx acc _ e leds h
    simp [init_leds] at h
  | cons ind rest ih =>
    intro idx acc hinv e leds h
    rw [init_leds] at h
    by_cases hs : supported &&& ind.bit = 0
    · rw [if_pos hs] at h
      exact ih idx acc hinv e leds h
    · rw [if_neg hs] at h
      cases horacle : oracle idx with
      | ok =>
        rw [horacle] at h
        refine ih (idx + 1) (acc ++ [⟨ind.bit, true, true⟩]) ?_ e leds h
        intro l hl
        rcases List.mem_append.mp hl with hmem | hmem
        · exact hinv l hmem
        · simp at hmem
          subst hmem
          intro hr
          rfl
      | composeFail e2 =>
        rw [horacle] at h
        injection h with h
        injection h with h1 h2
        subst h2
        refine npem_free_unregisters _ ?_
        intro l hl
        rcases List.mem_append.mp hl with hmem | hmem
        · exact hinv l hmem
        · simp at hmem
          subst hmem
          intro hr
          simp at hr
      | registerFail e2 =>
        rw [horacle] at h
        injection h with h
        injection h with h1 h2
        subst h2
        refine npem_free_unregisters _ ?_
        intro l hl
        rcases List.mem_append.mp hl with hmem | hmem
        · exact hinv l hmem
        · simp at hmem
          subst hmem
          intro hr
          simp at hr

/-- C6: if pci_npem_init fails, every LED classdev handle registered for the
session has been unregistered again before the error is returned: the final
LED slot array contains no registered slot. -/
theorem C6_failed_init_unregisters_all (ops : ops_backend) (caps garbage : Nat)
    (oracle : Nat → led_reg_outcome)
    (h : (pci_npem_init ops caps garbage oracle).ret ≠ 0) :
    ((pci_npem_init ops caps garbage oracle).leds.all fun l => !l.registered) = true := by
  simp only [pci_npem_init] at h ⊢
  by_cases hg : (get_active_indications ops (reg_to_indications caps (ops_inds ops)) garbage).1 ≠ 0
  · simp [hg]
  · simp only [hg, if_false] at h ⊢
    cases hE : init_leds oracle (reg_to_indications caps (ops_inds ops)) npem_indications 0 [] with
    | ok leds => simp [hE] at h
    | error p =>
      obtain ⟨e, leds⟩ := p
      simp only [hE, List.all_eq_true]
      intro l hl
      have := init_leds_error_unregisters oracle
        (reg_to_indications caps (ops_inds ops)) npem_indications 0 []
        (by intro l hl; simp at hl) e leds hE l hl
      simp [this]

/-- Oracle that fails the first LED classdev registration. -/
def failFirstOracle : Nat → led_reg_outcome := fun _ => .registerFail (-19)

/-- Witness for C6: a _DSM-backend session over capability word 4 whose
first (and only) registration fails; the returned slot array holds no
registered handle. -/
theorem C6_witness :
    (pci_npem_init (.dsm dsmEchoGet dsmEchoSet) 4 0 failFirstOracle).ret ≠ 0 ∧
    ((pci_npem_init (.dsm dsmEchoGet dsmEchoSet) 4 0 failFirstOracle).leds.all
      fun l => !l.registered) = true :=
  ⟨by decide, C6_failed_init_unregisters_all (.dsm dsmEchoGet dsmEchoSet) 4 0
    failFirstOracle (by decide)⟩

/-! ### C7 -/

/-- Backend that reads back an empty active set and accepts every write. -/
def c7_backend : em_backend := ⟨(0, 0), fun _ => 0⟩

/-- C7 counterexample: ENCLOSURE_LED_LOCATE is in the catalog but outside a
Supported Set of 0, yet pcie_em_set_pattern_state does not return
ENCLOSURE_STATUS_UNSUPPORTED: it performs a backend read and then writes
the unsupported bit, returning ENCLOSURE_STATUS_OK.  The supported set is
never consulted on the set path. -/
theorem C7_unsupported_kind_performs_io :
    pcie_em_set_pattern_state c7_backend .npem 0 .locate true =
      (.ok, [.getActive, .setActive NPEM_LOCATE]) ∧
    NPEM_LOCATE &&& (0 : Nat) ≠ NPEM_LOCATE := by decide

/-- C7 (amended): the set path rejects with ENCLOSURE_STATUS_UNSUPPORTED,
before any backend I/O and with the active state untouched, exactly those
kinds that have no backend bit at all — ENCLOSURE_LED_UNKNOWN, and
ENCLOSURE_LED_DISABLED on the _DSM backend; membership in the Supported Set
is not checked by the set path. -/
theorem C7_reject_only_patterns_without_bit
    (b : em_backend) (type : pcie_em_type) (supported : Nat)
    (ptrn : enclosure_led_pattern) (state : Bool)
    (h : get_pattern_bit type ptrn = 0) :
    pcie_em_set_pattern_state b type supported ptrn state = (.unsupported, []) := by
  simp [pcie_em_set_pattern_state, h]

/-- Witness for C7 at ENCLOSURE_LED_DISABLED on the _DSM backend. -/
theorem C7_witness :
    get_pattern_bit .dsm .disabled = 0 ∧
    pcie_em_set_pattern_state c7_backend .dsm 0xFFF .disabled true =
      (.unsupported, []) :=
  ⟨by decide, C7_reject_only_patterns_without_bit c7_backend .dsm 0xFFF .disabled true
    (by decide)⟩

/-! ### C8 -/

/-- Register behaviour whose status register always reads command-complete
and whose control register holds NPEM_LOCATE with NPEM_ENABLED clear. -/
def c8_hw : npem_hw :=
  { statusReads := fun _ => (0, 1)
    pollBudget := 3
    ctrlRead := (0, NPEM_LOCATE)
    writeCtrl := fun _ => 0 }

/-- C8 counterexample: with the channel-enable bit clear in the control
register, get_active_patterns_npem of pcie_em.c returns the raw register
value NPEM_LOCATE, and the portdrv revision returns it as well (it only
masks off the ENABLED and RESET bits) — neither reports an empty active
set. -/
theorem C8_disabled_channel_reports_active :
    get_active_patterns_npem_em c8_hw 0 = (0, NPEM_LOCATE) ∧
    get_active_patterns_npem_portdrv c8_hw 0 = (0, NPEM_LOCATE) ∧
    NPEM_LOCATE &&& NPEM_ENABLED = 0 ∧ NPEM_LOCATE ≠ 0 := by decide

/-- C8 (amended): only npem.c's register-backend get honours the disabled
channel: whenever the control register reads back successfully with
PCI_NPEM_CTRL_ENABLE clear, npem_get_active_indications reports an empty
active set, regardless of the other register bits and of the supported
set. -/
theorem C8_npem_get_empty_when_disabled (supported v : Nat)
    (hv : v &&& PCI_NPEM_CTRL_ENABLE = 0) :
    Npem.npem_get_active_indications supported (0, v) = (0, 0) := by
  simp [Npem.npem_get_active_indications, hv]

/-- Witness for C8 with all other control bits set. -/
theorem C8_witness :
    (0xFFE : Nat) &&& PCI_NPEM_CTRL_ENABLE = 0 ∧
    Npem.npem_get_active_indications 0xFFC (0, 0xFFE) = (0, 0) :=
  ⟨by decide, C8_npem_get_empty_when_disabled 0xFFC 0xFFE (by decide)⟩

/-! ### C9 -/

/-- Evaluation of brightness_set(LED_ON) against the echo register backend:
the driver writes (active | bit) | ENABLE, the device echoes it, and the
cache becomes that value masked with the supported set. -/
theorem brightness_set_echo_reg (st : npem) (k : Nat) :
    brightness_set 0 (.npemReg echoRegBackend) st k LED_ON =
      (0, { st with active_indications :=
        ((st.active_indications ||| k) ||| 1) &&& st.supported_indications }) := by
  simp [brightness_set, LED_ON, LED_OFF, set_active_indications,
        npem_set_active_indications, echoRegBackend, read_poll_timeout,
        npem_get_active_indications, PCI_NPEM_CTRL_ENABLE, PCI_NPEM_STATUS_CC,
        lor_one_land_one, lor_one_mod_two]

/-- Evaluation of brightness_set(LED_ON) against the echo _DSM backend: the
cache becomes active | bit verbatim. -/
theorem brightness_set_echo_dsm (st : npem) (k : Nat) :
    brightness_set 0 (.dsm dsmEchoGet dsmEchoSet) st k LED_ON =
      (0, { st with active_indications := st.active_indications ||| k }) := by
  simp [brightness_set, LED_ON, LED_OFF, set_active_indications,
        dsm_set_active_indications, dsmEchoSet]

/-- C9: for a supported kind k, setting k on twice in a row against a
backend that accepts requests verbatim leaves the Active Set cache exactly
where one call left it, for both the register backend and the method
backend. -/
theorem C9_set_twice_equals_set_once (st : npem) (k : Nat)
    (hk : k &&& st.supported_indications = k) :
    (brightness_set 0 (.npemReg echoRegBackend)
        (brightness_set 0 (.npemReg echoRegBackend) st k LED_ON).2 k LED_ON).2 =
      (brightness_set 0 (.npemReg echoRegBackend) st k LED_ON).2 ∧
    (brightness_set 0 (.dsm dsmEchoGet dsmEchoSet)
        (brightness_set 0 (.dsm dsmEchoGet dsmEchoSet) st k LED_ON).2 k LED_ON).2 =
      (brightness_set 0 (.dsm dsmEchoGet dsmEchoSet) st k LED_ON).2 := by
  constructor
  · simp only [brightness_set_echo_reg]
    simp only [npem.mk.injEq]
    exact ⟨trivial, land_absorb_lor st.active_indications k st.supported_indications⟩
  · simp only [brightness_set_echo_dsm]
    simp only [npem.mk.injEq]
    exact ⟨trivial, lor_absorb st.active_indications k⟩

/-- Witness for C9 at a session supporting 0xC with k = 4. -/
theorem C9_witness :
    (4 : Nat) &&& (12 : Nat) = 4 ∧
    ((brightness_set 0 (.npemReg echoRegBackend)
        (brightness_set 0 (.npemReg echoRegBackend) ⟨12, 0⟩ 4 LED_ON).2 4 LED_ON).2 =
      (brightness_set 0 (.npemReg echoRegBackend) ⟨12, 0⟩ 4 LED_ON).2 ∧
     (brightness_set 0 (.dsm dsmEchoGet dsmEchoSet)
        (brightness_set 0 (.dsm dsmEchoGet dsmEchoSet) ⟨12, 0⟩ 4 LED_ON).2 4 LED_ON).2 =
      (brightness_set 0 (.dsm dsmEchoGet dsmEchoSet) ⟨12, 0⟩ 4 LED_ON).2) :=
  ⟨by decide, C9_set_twice_equals_set_once ⟨12, 0⟩ 4 (by decide)⟩

/-! ### C10 -/

/-- C10: when mutex_lock_interruptible is interrupted by a signal it returns
-EINTR, and brightness_get returns that negative errno itself as the
brightness value — a value distinct from both LED_OFF and LED_ON — while
leaving the session state untouched and performing no backend I/O (the
function consults only the cache even on its success path). -/
theorem C10_interrupted_get_returns_errno (st : npem) (bit : Nat) :
    brightness_get (-EINTR) st bit = (-EINTR, st) ∧
    -EINTR ≠ LED_OFF ∧ -EINTR ≠ LED_ON := by
  refine ⟨?_, by decide, by decide⟩
  simp [brightness_get, EINTR]
